import Mathlib

/-!
Shallow embedding of `fmriprepgr/reports.py` (fmriprep-group-report).

The module parses fmriprep HTML reports with BeautifulSoup, assembles a
pandas DataFrame with one row per figure, post-processes a `report_type`
column, and aggregates the per-subject tables into paginated consolidated
pages.  The embedding below mirrors the functions of `reports.py`:

* `parse_loop` / `parse_report`   : the figure loop (lines 29-58) and the
  `report_type` post-processing (lines 60-67);
* `unique_retrieval`              : `_unique_retrieval` (lines 70-91);
* `id_ents` / `header_vals`       : the field splitting of
  `_make_report_snippet` (lines 107-114);
* `collect_step` / `merge_reports`, `groupOf` / `assign_idx_chunk`,
  `ensure_subject_link`           : the driver `make_report`
  (lines 159-184).

Python/pandas behaviours that matter are modelled explicitly:

* a pandas column built from a list of row dicts exists iff at least one
  row dict carried the key; attribute access (`df.desc`, `df.suffix`) on a
  missing column raises `AttributeError` (`Err.attributeError`);
* BeautifulSoup (html.parser) treats `class` as a multi-valued attribute,
  so `tag.get('class', '')` yields a *list* of class strings; Python's
  `==` between a list and a string is always `False` (`pyEq`);
* `dict.get(k, default)` returns the stored value whenever the key is
  present, even if that value is the empty string (`fig_path`);
* missing values (`np.nan` / absent keys) are `Option.none`.
-/

deriving instance DecidableEq for Except

namespace Fgr

/-- Python exceptions that `reports.py` can raise, as an error type. -/
inductive Err
  | typeError
  | indexError
  | attributeError
  | valueError
  | fileExistsError
deriving DecidableEq

/-- The entity fields of `layout.parse_file_entities(fig_path, ...)` that the
`report_type` post-processing of `parse_report` reads.  A `none` field means
the entity was absent from the returned mapping (hence the pandas column
value is NaN for that row). -/
structure Ents where
  desc : Option String
  suffix : Option String
  space : Option String
deriving DecidableEq

/-- Python values that can appear in the `prev.get('class', '') == 'elem-caption'`
comparison: the default `''` (a string) or a bs4 multi-valued class list. -/
inductive PyVal
  | pystr (s : String)
  | pylist (xs : List String)
deriving DecidableEq

/-- Python `==` on those values: values of different types are never equal. -/
def pyEq : PyVal → PyVal → Bool
  | .pystr a, .pystr b => a == b
  | .pylist a, .pylist b => a == b
  | _, _ => false

/-- A sibling node as seen by `fd.previous_siblings`: either a bs4 `Tag`
(with an optional `class` attribute holding its class list) or a
`NavigableString`. -/
inductive Node
  | tag (classes : Option (List String)) (text : String)
  | navString (text : String)
deriving DecidableEq

/-- `isinstance(prev, Tag)`. -/
def Node.isTag : Node → Bool
  | .tag _ _ => true
  | .navString _ => false

/-- `prev.has_attr('class')`. -/
def Node.hasClassAttr : Node → Bool
  | .tag (some _) _ => true
  | _ => false

/-- `prev.get('class', '')`: the class list when the attribute is present
(html.parser keeps `class` multi-valued), else the default `''`. -/
def Node.getClassDefault : Node → PyVal
  | .tag (some cls) _ => .pylist cls
  | _ => .pystr ""

/-- `prev.text`. -/
def Node.text : Node → String
  | .tag _ t => t
  | .navString t => t

/-- One element of `soup.findAll(attrs={'class': 'svg-reportlet'})`, with the
results of the structural queries `parse_report` performs on it:
`src`/`data` attributes, the texts of `fd.parent.findAll("h3", class
run-title)`, the texts of `fd.parent.findAll("p", class elem-caption)`, and
`fd.previous_siblings` (nearest sibling first). -/
structure Figure where
  src : Option String
  data : Option String
  titles : List String
  captions : List String
  prevSiblings : List Node
deriving DecidableEq

/-- Line 33: `fig_path = fd.get('src', fd.get('data'))`.  Python `dict.get`
returns the stored value whenever the key is present (even `''`), else the
default. -/
def fig_path (fd : Figure) : Option String :=
  match fd.src with
  | some s => some s
  | none => fd.data

/-- Split a character list on a separator, keeping empty components (the
behaviour of `str.split('/')`). -/
def splitAux (c : Char) : List Char → List Char → List String
  | [], acc => [String.mk acc.reverse]
  | ch :: rest, acc =>
    if ch = c then String.mk acc.reverse :: splitAux c rest []
    else splitAux c rest (ch :: acc)

/-- `s.split(sep)` for a one-character separator. -/
def splitOnChar (c : Char) (s : String) : List String :=
  splitAux c s.data []

/-- `Path(s).parts` for the relative figure paths used here: the non-empty,
non-`.` components of the `/`-separated path. -/
def pathParts (s : String) : List String :=
  (splitOnChar '/' s).filter (fun c => c != "" && c != ".")

/-- `_unique_retrieval` (lines 86-91): more than one match or no match
raises `ValueError`, otherwise the single element's text is returned. -/
def unique_retrieval (element_list : List String) : Except Err String :=
  if element_list.length > 1 then .error .valueError
  else
    match element_list with
    | [] => .error .valueError
    | t :: _ => .ok t

/-- Lines 54-56: the `except ValueError` fallback for `elem_caption`.  The
loop has no `break`, so each matching sibling overwrites the previous
assignment and the *last* match in iteration order wins; a sibling matches
when `isinstance(prev, Tag) and prev.has_attr('class') and
prev.get('class', '') == 'elem-caption'`. -/
def captionFallback (sibs : List Node) : Option String :=
  sibs.foldl
    (fun acc prev =>
      if prev.isTag && prev.hasClassAttr &&
          pyEq prev.getClassDefault (.pystr "elem-caption") then
        some prev.text
      else acc)
    none

/-- Lines 50-56: `row['elem_caption']` — the single caption text if the
container holds exactly one caption paragraph, else the sibling fallback. -/
def resolveCaption (fd : Figure) : Option String :=
  match unique_retrieval fd.captions with
  | .ok c => some c
  | .error _ => captionFallback fd.prevSiblings

/-- Lines 41-46: `row['run_title']` — the single title text if the container
holds exactly one `run-title` heading, else the previous record's value. -/
def resolveRunTitle (titles : List String) (prev : Option String) : Option String :=
  match unique_retrieval titles with
  | .ok t => some t
  | .error _ => prev

/-- One row dict appended to `report_elements` (lines 34-58), before the
`report_type` post-processing. -/
structure FigRow where
  desc : Option String
  suffix : Option String
  space : Option String
  path : String
  filename : String
  run_title : Option String
  elem_caption : Option String
deriving DecidableEq

/-- The figure loop of `parse_report` (lines 31-58).  `pfe` stands for
`layout.parse_file_entities(..., config=['bids', 'derivatives'])`.
`prev_run_title` is the mutable variable of line 31; the pair `rt` records
(row value, updated previous value): on a unique title both are that title
(lines 43-44), on `ValueError` the row reuses the unchanged previous value
(line 46).  A figure with neither `src` nor `data` makes line 34/36 operate
on `None` (`TypeError`); a path with no components makes `parts[-1]` raise
(`IndexError`). -/
def parse_loop (pfe : String → Ents) :
    (doc : List Figure) → (prev_run_title : Option String) →
      Except Err (List FigRow)
  | [], _ => .ok []
  | fd :: rest, prev_run_title =>
    match fig_path fd with
    | none => .error .typeError
    | some fp =>
      match (pathParts fp).getLast? with
      | none => .error .indexError
      | some fn =>
        let ents := pfe fp
        let rt : Option String × Option String :=
          match unique_retrieval fd.titles with
          | .ok t => (some t, some t)
          | .error _ => (prev_run_title, prev_run_title)
        let row : FigRow :=
          { desc := ents.desc, suffix := ents.suffix, space := ents.space,
            path := fp, filename := fn, run_title := rt.1,
            elem_caption := resolveCaption fd }
        match parse_loop pfe rest rt.2 with
        | .ok rows => .ok (row :: rows)
        | .error e => .error e
termination_by structural doc _ => doc

/-- A pandas column exists in `pd.DataFrame(report_elements)` iff at least
one row dict carried the key, i.e. iff some row's field is non-null. -/
def hasCol (proj : FigRow → Option String) (rows : List FigRow) : Bool :=
  rows.any (fun r => (proj r).isSome)

/-- A row of the returned DataFrame after the `report_type` column is
added. -/
structure TypedRow extends FigRow where
  report_type : Option String
deriving DecidableEq

/-- Lines 60-67 of `parse_report`.  `report_elements['report_type'] =
report_elements.desc` raises `AttributeError` when there is no `desc`
column, and `report_elements.suffix` likewise needs a `suffix` column; the
`space` pass alone is guarded by `if 'space' in report_elements.columns`.
The passes operate through masks that select only still-null
`report_type` values. -/
def addReportType (rows : List FigRow) : Except Err (List TypedRow) :=
  if hasCol FigRow.desc rows = false then .error .attributeError
  else if hasCol FigRow.suffix rows = false then .error .attributeError
  else
    let step1 : List TypedRow :=
      rows.map (fun r => { toFigRow := r, report_type := r.desc })
    let step2 : List TypedRow :=
      step1.map (fun r =>
        if r.report_type.isNone && (r.suffix == some "dseg") then
          { r with report_type := r.suffix }
        else r)
    let step3 : List TypedRow :=
      if hasCol FigRow.space rows then
        step2.map (fun r =>
          if r.report_type.isNone && r.space.isSome then
            { r with report_type := r.space }
          else r)
      else step2
    .ok step3

/-- `parse_report` (lines 14-67): the figure loop followed by the
`report_type` post-processing. -/
def parse_report (pfe : String → Ents) (doc : List Figure) :
    Except Err (List TypedRow) :=
  match parse_loop pfe doc none with
  | .error e => .error e
  | .ok rows => addReportType rows

/-- The `report_type` fallback chain as the specification words it:
the description when non-null; else the suffix when the suffix is the
sentinel `dseg`; else the space field when non-null; else unset.  Stated
from the spec, to be compared with `addReportType`. -/
def spec_report_type (r : FigRow) : Option String :=
  match r.desc with
  | some d => some d
  | none =>
    if r.suffix == some "dseg" then r.suffix
    else
      match r.space with
      | some s => some s
      | none => none

/-- A row of `rtdf` after `make_report` lines 178-183: the group-local
`reset_index` position `idx` and the page number `chunk`. -/
structure PageRow extends TypedRow where
  idx : Nat
  chunk : Nat
deriving DecidableEq

/-- One group of `reports.groupby('report_type')` (line 177): the rows whose
`report_type` equals the (non-null) key, in merged-table order. -/
def groupOf (merged : List TypedRow) (k : String) : List TypedRow :=
  merged.filter (fun r => r.report_type == some k)

/-- Lines 178-183: `rtdf.reset_index().rename(columns={'index': 'idx'})`
gives each row its zero-based position, then `chunk = idx //
reports_per_page`, or a constant `0` when `reports_per_page is None`. -/
def assign_idx_chunk (reports_per_page : Option Nat) (rtdf : List TypedRow) :
    List PageRow :=
  rtdf.enum.map (fun p =>
    { toTypedRow := p.2, idx := p.1,
      chunk :=
        match reports_per_page with
        | none => 0
        | some npp => p.1 / npp })

/-- One discovered `sub-*.html` path together with the figure elements of
the document it holds. -/
structure ReportFile where
  path : String
  doc : List Figure
deriving DecidableEq

/-- The order `sorted(...)` uses on the discovered report paths. -/
def pathLe (a b : ReportFile) : Prop :=
  a.path ≤ b.path

instance : DecidableRel pathLe :=
  fun a b => inferInstanceAs (Decidable (a.path ≤ b.path))

instance : IsTotal ReportFile pathLe :=
  ⟨fun a b => le_total a.path b.path⟩

instance : IsTrans ReportFile pathLe :=
  ⟨fun _ _ _ hab hbc => le_trans hab hbc⟩

/-- Line 159: `sorted(fmriprep_output_path.glob('**/sub-*.html'))`.  Python
`sorted` is a stable sort, as is `List.insertionSort`. -/
def report_paths_sorted (files : List ReportFile) : List ReportFile :=
  List.insertionSort pathLe files

/-- The body of the discovery loop (lines 161-163) restricted to the data
path: a report whose path has a `figures` component is skipped, otherwise
its parsed table is appended to the accumulator; a parse failure aborts the
run.  (The symlink side effects of the same loop are modelled separately by
`ensure_subject_link`.) -/
def collect_step (pfe : String → Ents)
    (acc : Except Err (List (List TypedRow))) (rf : ReportFile) :
    Except Err (List (List TypedRow)) :=
  match acc with
  | .error e => .error e
  | .ok ts =>
    if (pathParts rf.path).contains "figures" then .ok ts
    else
      match parse_report pfe rf.doc with
      | .ok t => .ok (ts ++ [t])
      | .error e => .error e

/-- The discovery loop over the sorted paths. -/
def collect_reports (pfe : String → Ents) (files : List ReportFile) :
    Except Err (List (List TypedRow)) :=
  files.foldl (collect_step pfe) (.ok [])

/-- Lines 159-174 (data path): sort the discovered paths, run the loop, and
concatenate with `pd.concat(reports)`, which raises `ValueError` on an
empty list of tables. -/
def merge_reports (pfe : String → Ents) (files : List ReportFile) :
    Except Err (List TypedRow) :=
  match collect_reports pfe (report_paths_sorted files) with
  | .error e => .error e
  | .ok ts => if ts.isEmpty then .error .valueError else .ok ts.flatten

/-- A Python value stored in a row dict handed to `_make_report_snippet`
(`cdf.to_dict('records')`): NaN/None, a bool, a string or an integer. -/
inductive Val
  | vnone
  | vbool (b : Bool)
  | vstr (s : String)
  | vnat (n : Nat)
deriving DecidableEq

/-- `pd.notnull`. -/
def Val.notnull : Val → Bool
  | .vnone => false
  | _ => true

/-- Line 107 of `_make_report_snippet`. -/
def id_blacklist : List String :=
  ["path", "run_title", "elem_caption", "extension", "filename"]

/-- Line 108 of `_make_report_snippet`. -/
def header_blacklist : List String :=
  id_blacklist ++ ["desc", "report_type", "idx", "chunk"]

/-- Python dict assignment `d[k] = v`: overwrite in place when the key is
present, else append. -/
def dictSet (d : List (String × Val)) (k : String) (v : Val) :
    List (String × Val) :=
  if d.any (fun kv => kv.1 == k) then
    d.map (fun kv => if kv.1 == k then (k, v) else kv)
  else d ++ [(k, v)]

/-- Lines 109-111: the embedded JSON record `id_ents` — the row minus
`id_blacklist`, plus `been_on_screen = False`. -/
def id_ents (row : List (String × Val)) : List (String × Val) :=
  dictSet (row.filter (fun kv => !(id_blacklist.contains kv.1)))
    "been_on_screen" (.vbool false)

/-- Line 112: the header fields — the row minus `header_blacklist`. -/
def header_ents (row : List (String × Val)) : List (String × Val) :=
  row.filter (fun kv => !(header_blacklist.contains kv.1))

/-- Line 114: the header pairs actually rendered — the non-null header
fields. -/
def header_vals (row : List (String × Val)) : List (String × Val) :=
  (header_ents row).filter (fun kv => kv.2.notnull)

/-- A filesystem entry for the symlink bookkeeping of `make_report`. -/
inductive FSEntry
  | dir
  | file
  | symlink (target : String)
deriving DecidableEq

/-- A small filesystem: an association list from path to entry. -/
abbrev FS := List (String × FSEntry)

/-- `Path.mkdir(exist_ok=True)` (line 168): fine if the path is already a
directory, `FileExistsError` if it exists as something else. -/
def mkdir_exist_ok (fs : FS) (p : String) : Except Err FS :=
  match fs.lookup p with
  | some FSEntry.dir => .ok fs
  | some _ => .error .fileExistsError
  | none => .ok ((p, FSEntry.dir) :: fs)

/-- `Path.is_symlink()` (line 171). -/
def is_symlink (fs : FS) (p : String) : Bool :=
  match fs.lookup p with
  | some (FSEntry.symlink _) => true
  | _ => false

/-- `Path.symlink_to(target)` (line 172): `FileExistsError` when the path
already exists. -/
def symlink_to (fs : FS) (p tgt : String) : Except Err FS :=
  match fs.lookup p with
  | some _ => .error .fileExistsError
  | none => .ok ((p, FSEntry.symlink tgt) :: fs)

/-- Lines 167-172 for one subject: make the per-subject group directory,
then create the `figures` symlink only when the path is not already a
symlink. -/
def ensure_subject_link (fs : FS)
    (subj_group_dir subj_group_fig_dir orig_fig_dir : String) :
    Except Err FS :=
  match mkdir_exist_ok fs subj_group_dir with
  | .error e => .error e
  | .ok fs1 =>
    if is_symlink fs1 subj_group_fig_dir then .ok fs1
    else symlink_to fs1 subj_group_fig_dir orig_fig_dir

/-! Concrete fixtures used to exercise the definitions on closed inputs. -/

/-- A filename-entity mapping that always yields a `desc` and a `suffix`
entity and no `space` entity. -/
def pfe0 : String → Ents := fun _ =>
  { desc := some "sdc", suffix := some "bold", space := none }

/-- A filename-entity mapping that yields no `desc` entity. -/
def pfeNoDesc : String → Ents := fun _ =>
  { desc := none, suffix := some "dseg", space := none }

/-- A figure with a unique run title and a unique caption. -/
def figA : Figure :=
  { src := some "sub-01/figures/a.svg", data := none,
    titles := ["Run A"], captions := ["cap a"], prevSiblings := [] }

/-- A figure with no run title and a unique caption. -/
def figB : Figure :=
  { src := some "sub-01/figures/b.svg", data := none,
    titles := [], captions := ["cap b"], prevSiblings := [] }

/-- A two-figure document. -/
def docAB : List Figure := [figA, figB]

/-- The table `parse_report` produces for `docAB` under `pfe0`. -/
def outAB : List TypedRow :=
  (parse_report pfe0 docAB).toOption.getD []

/-- A figure whose container has no caption paragraph but whose immediately
preceding sibling is a `p` tag with class `elem-caption`. -/
def figSib : Figure :=
  { src := some "sub-01/figures/c.svg", data := none,
    titles := ["Run C"], captions := [],
    prevSiblings := [Node.tag (some ["elem-caption"]) "Cap"] }

/-- The one-figure document around `figSib`. -/
def docSib : List Figure := [figSib]

/-- A figure whose `src` attribute is present but empty while `data` is a
real path. -/
def figESrc : Figure :=
  { src := some "", data := some "sub-01/figures/d.svg",
    titles := [], captions := [], prevSiblings := [] }

/-- Rows exercising all three `report_type` fallback passes. -/
def rowsRT : List FigRow :=
  [{ desc := some "brain", suffix := some "T1w", space := some "MNI",
     path := "p1", filename := "f1", run_title := none, elem_caption := none },
   { desc := none, suffix := some "dseg", space := some "MNI",
     path := "p2", filename := "f2", run_title := none, elem_caption := none },
   { desc := none, suffix := some "bold", space := some "MNI",
     path := "p3", filename := "f3", run_title := none, elem_caption := none },
   { desc := none, suffix := some "bold", space := none,
     path := "p4", filename := "f4", run_title := none, elem_caption := none }]

/-- The typed table `addReportType` produces from `rowsRT`. -/
def outRT : List TypedRow :=
  (addReportType rowsRT).toOption.getD []

/-- A merged-table row with `report_type = some "T"`. -/
def trowT : TypedRow :=
  { desc := some "T", suffix := some "bold", space := none,
    path := "sub-01/figures/t.svg", filename := "t.svg",
    run_title := some "Run T", elem_caption := none,
    report_type := some "T" }

/-- A merged table of 120 rows of report type `T`. -/
def m120 : List TypedRow := List.replicate 120 trowT

/-- A subject report file at a sortable path. -/
def fileA : ReportFile := { path := "out/sub-01.html", doc := docAB }

/-- A second subject report file sorting after `fileA`. -/
def fileB : ReportFile := { path := "out/sub-02.html", doc := [figA] }

/-- An embedded copy of a report inside a `figures` directory, which
discovery must skip. -/
def fileFig : ReportFile :=
  { path := "out/sub-01/figures/sub-01.html", doc := [figB] }

/-- The discovered files, deliberately out of sorted order. -/
def filesABF : List ReportFile := [fileB, fileFig, fileA]

/-- A snippet row with identifying fields, entity fields and paging
fields. -/
def rowSnip : List (String × Val) :=
  [("subject", Val.vstr "01"), ("desc", Val.vstr "sdc"),
   ("report_type", Val.vstr "sdc"), ("session", Val.vnone),
   ("path", Val.vstr "sub-01/figures/a.svg"), ("filename", Val.vstr "a.svg"),
   ("run_title", Val.vstr "Run A"), ("elem_caption", Val.vstr "cap a"),
   ("extension", Val.vstr ".svg"), ("idx", Val.vnat 0), ("chunk", Val.vnat 0)]

/-- A filesystem on which `make_report` has already run once for subject
`01`: the group directory exists and the `figures` symlink is in place. -/
def fsOnce : FS :=
  [("group/sub-01/figures", FSEntry.symlink "../../sub-01/figures"),
   ("group/sub-01", FSEntry.dir)]

/-- The rows the figure loop produces for `docAB` under `pfeNoDesc`. -/
def rowsND : List FigRow :=
  (parse_loop pfeNoDesc docAB none).toOption.getD []

/-- The `prev_run_title` value in scope when record `i` of `out` is built:
the initial value for `i = 0`, else record `i-1`'s resolved `run_title`. -/
def prevTitle (prev : Option String) (out : List FigRow) : Nat → Option String
  | 0 => prev
  | j + 1 =>
    match out[j]? with
    | some r => r.run_title
    | none => none

/-! ### Helper lemmas about the `report_type` post-processing -/

lemma hasCol_false_mem {proj : FigRow → Option String} {rows : List FigRow}
    (h : hasCol proj rows = false) : ∀ r ∈ rows, proj r = none := by
  intro r hr
  have hn := List.any_eq_false.mp h r hr
  cases hp : proj r with
  | none => rfl
  | some v => rw [hp] at hn; simp at hn

lemma parse_report_eq {pfe : String → Ents} {doc : List Figure}
    {rows : List FigRow} (hp : parse_loop pfe doc none = .ok rows) :
    parse_report pfe doc = addReportType rows := by
  unfold parse_report
  rw [hp]

lemma addReportType_ok {rows : List FigRow} {out : List TypedRow}
    (h : addReportType rows = .ok out) :
    out = rows.map (fun r => { toFigRow := r, report_type := spec_report_type r }) := by
  unfold addReportType at h
  cases hd : hasCol FigRow.desc rows with
  | false => rw [hd] at h; simp at h
  | true =>
    rw [hd] at h
    cases hs : hasCol FigRow.suffix rows with
    | false => rw [hs] at h; simp at h
    | true =>
      rw [hs] at h
      cases hsp : hasCol FigRow.space rows with
      | true =>
        rw [hsp] at h
        simp only [Bool.true_eq_false, if_false, if_true, Except.ok.injEq] at h
        subst h
        rw [List.map_map, List.map_map]
        apply List.map_congr_left
        intro r _
        simp only [Function.comp_apply]
        rcases hdc : r.desc with _ | d
        · cases hsg : r.suffix == some "dseg" with
          | true =>
            have hsuf : r.suffix = some "dseg" := eq_of_beq hsg
            simp [spec_report_type, hdc, hsg, hsuf]
          | false =>
            rcases hspc : r.space with _ | s
            · simp [spec_report_type, hdc, hsg, hspc]
            · simp [spec_report_type, hdc, hsg, hspc]
        · simp [spec_report_type, hdc]
      | false =>
        rw [hsp] at h
        simp only [Bool.true_eq_false, Bool.false_eq_true, if_false,
          Except.ok.injEq] at h
        subst h
        rw [List.map_map]
        apply List.map_congr_left
        intro r hr
        have hspc : r.space = none := hasCol_false_mem hsp r hr
        simp only [Function.comp_apply]
        rcases hdc : r.desc with _ | d
        · cases hsg : r.suffix == some "dseg" with
          | true =>
            have hsuf : r.suffix = some "dseg" := eq_of_beq hsg
            simp [spec_report_type, hdc, hsg, hsuf]
          | false => simp [spec_report_type, hdc, hsg, hspc]
        · simp [spec_report_type, hdc]

/-! ### Helper lemmas about the figure loop -/

lemma parse_report_err {pfe : String → Ents} {doc : List Figure} {e : Err}
    (hp : parse_loop pfe doc none = .error e) :
    parse_report pfe doc = .error e := by
  unfold parse_report
  rw [hp]

lemma unique_retrieval_single (t : String) : unique_retrieval [t] = .ok t := rfl

lemma unique_retrieval_not_single {l : List String} (h : l.length ≠ 1) :
    unique_retrieval l = .error .valueError := by
  match l with
  | [] => rfl
  | [t] => exact absurd rfl h
  | t :: u :: rest =>
    have hlen : (t :: u :: rest).length > 1 := by simp
    simp [unique_retrieval, hlen]

lemma resolveRunTitle_single (t : String) (p : Option String) :
    resolveRunTitle [t] p = some t := rfl

lemma resolveRunTitle_not_single {l : List String} (h : l.length ≠ 1)
    (p : Option String) : resolveRunTitle l p = p := by
  unfold resolveRunTitle
  rw [unique_retrieval_not_single h]

lemma prevTitle_cons (prev : Option String) (row : FigRow) (rows : List FigRow)
    (j : Nat) :
    prevTitle prev (row :: rows) (j + 1) = prevTitle row.run_title rows j := by
  cases j with
  | zero => simp [prevTitle]
  | succ k => simp [prevTitle]

lemma parse_loop_cons_eq (pfe : String → Ents) (fd : Figure)
    (rest : List Figure) (prev : Option String) (fp fn : String)
    (hfp : fig_path fd = some fp)
    (hlast : (pathParts fp).getLast? = some fn) :
    parse_loop pfe (fd :: rest) prev =
      match parse_loop pfe rest (resolveRunTitle fd.titles prev) with
      | .ok rows =>
        .ok ({ desc := (pfe fp).desc, suffix := (pfe fp).suffix,
               space := (pfe fp).space, path := fp, filename := fn,
               run_title := resolveRunTitle fd.titles prev,
               elem_caption := resolveCaption fd } :: rows)
      | .error e => .error e := by
  cases hu : unique_retrieval fd.titles with
  | error e => simp [parse_loop, hfp, hlast, hu, resolveRunTitle]
  | ok t => simp [parse_loop, hfp, hlast, hu, resolveRunTitle]

lemma parse_loop_spec (pfe : String → Ents) :
    ∀ (doc : List Figure) (prev : Option String) (out : List FigRow),
      parse_loop pfe doc prev = .ok out →
      out.length = doc.length ∧
      ∀ i fd row, doc[i]? = some fd → out[i]? = some row →
        (fig_path fd = some row.path ∧
         (pathParts row.path).getLast? = some row.filename ∧
         row.desc = (pfe row.path).desc ∧
         row.suffix = (pfe row.path).suffix ∧
         row.space = (pfe row.path).space) ∧
        row.run_title = resolveRunTitle fd.titles (prevTitle prev out i) ∧
        row.elem_caption = resolveCaption fd := by
  intro doc
  induction doc with
  | nil =>
    intro prev out h
    simp [parse_loop] at h
    subst h
    refine ⟨rfl, ?_⟩
    intro i fd row hfd hrow
    simp at hfd
  | cons fd rest ih =>
    intro prev out h
    rcases hfp : fig_path fd with _ | fp
    · simp [parse_loop, hfp] at h
    · rcases hlast : (pathParts fp).getLast? with _ | fn
      · simp [parse_loop, hfp, hlast] at h
      · rw [parse_loop_cons_eq pfe fd rest prev fp fn hfp hlast] at h
        cases hrec : parse_loop pfe rest (resolveRunTitle fd.titles prev) with
        | error e => rw [hrec] at h; simp at h
        | ok rows =>
          rw [hrec] at h
          simp only [Except.ok.injEq] at h
          subst h
          obtain ⟨hlen, hspec⟩ := ih (resolveRunTitle fd.titles prev) rows hrec
          refine ⟨by simp [hlen], ?_⟩
          intro i fd' row hfd hrow
          cases i with
          | zero =>
            simp only [List.getElem?_cons_zero, Option.some.injEq] at hfd hrow
            subst hfd
            subst hrow
            refine ⟨⟨hfp, hlast, rfl, rfl, rfl⟩, ?_, rfl⟩
            simp [prevTitle]
          | succ j =>
            simp only [List.getElem?_cons_succ] at hfd hrow
            have hj := hspec j fd' row hfd hrow
            simpa [prevTitle_cons] using hj

/-! ### Claim theorems about the `report_type` fallback chain -/

/-- C1: for every per-document table the `report_type` of each row is
resolved by the three-pass fallback chain — the description when non-null,
else the suffix when it is the sentinel `dseg`, else the space field when
non-null, else unset — with later passes only filling still-null values. -/
theorem report_type_fallback_chain (rows : List FigRow) (out : List TypedRow)
    (h : addReportType rows = .ok out) :
    out = rows.map (fun r => { toFigRow := r, report_type := spec_report_type r }) :=
  addReportType_ok h

/-- Witness for `report_type_fallback_chain` on a table exercising all
three passes. -/
theorem report_type_fallback_chain_witness :
    addReportType rowsRT = .ok outRT ∧
    outRT = rowsRT.map (fun r => { toFigRow := r, report_type := spec_report_type r }) :=
  ⟨by decide, report_type_fallback_chain rowsRT outRT (by decide)⟩

/-- C10: when no figure of the document yields a `desc` entity the
assembled table has no `desc` column and `parse_report` fails with
`AttributeError` during `report_type` assignment, whereas a missing `space`
column is guarded: with `desc` and `suffix` columns present and no `space`
column, `parse_report` succeeds. -/
theorem desc_column_required_space_guarded (pfe : String → Ents)
    (doc : List Figure) (rows : List FigRow)
    (hp : parse_loop pfe doc none = .ok rows) :
    (hasCol FigRow.desc rows = false →
      parse_report pfe doc = .error .attributeError) ∧
    (hasCol FigRow.desc rows = true → hasCol FigRow.suffix rows = true →
      hasCol FigRow.space rows = false →
      ∃ out, parse_report pfe doc = .ok out) := by
  constructor
  · intro hd
    rw [parse_report_eq hp]
    unfold addReportType
    rw [hd]
    simp
  · intro hd hs hsp
    rw [parse_report_eq hp]
    unfold addReportType
    rw [hd, hs, hsp]
    simp

/-- Witness for `desc_column_required_space_guarded`: a document whose
figures yield no `desc` entity makes `parse_report` fail with
`AttributeError`. -/
theorem desc_column_required_space_guarded_witness :
    parse_report pfeNoDesc docAB = .error .attributeError :=
  (desc_column_required_space_guarded pfeNoDesc docAB rowsND (by decide)).1
    (by decide)

/-! ### Claim theorems about the figure loop -/

/-- C2: within one document, when the title lookup for record `i` finds
exactly one title-marked heading, the record's `run_title` is that
heading's text; when it finds zero or more than one, record `i` reuses
record `i-1`'s resolved `run_title`. -/
theorem run_title_inheritance (pfe : String → Ents) (doc : List Figure)
    (out : List TypedRow) (h : parse_report pfe doc = .ok out)
    (i : Nat) (fd : Figure) (hfd : doc[i]? = some fd) :
    (∀ t, fd.titles = [t] →
      (out[i]?).map (fun r => r.run_title) = some (some t)) ∧
    (fd.titles.length ≠ 1 → ∀ j, i = j + 1 →
      (out[i]?).map (fun r => r.run_title) =
        (out[j]?).map (fun r => r.run_title)) := by
  rcases hq : parse_loop pfe doc none with e | rows
  · rw [parse_report_err hq] at h; simp at h
  · have hart : addReportType rows = .ok out := by
      rw [parse_report_eq hq] at h; exact h
    have hout := addReportType_ok hart
    obtain ⟨hlen, hspec⟩ := parse_loop_spec pfe doc none rows hq
    have hi : i < doc.length := by
      rcases List.getElem?_eq_some.mp hfd with ⟨hi, _⟩
      exact hi
    have hir : i < rows.length := by rw [hlen]; exact hi
    have hrow : rows[i]? = some rows[i] := List.getElem?_eq_getElem hir
    have hosome : out[i]? =
        some { toFigRow := rows[i], report_type := spec_report_type rows[i] } := by
      rw [hout, List.getElem?_map, hrow]; rfl
    obtain ⟨_, hrt, _⟩ := hspec i fd rows[i] hfd hrow
    constructor
    · intro t ht
      rw [hosome]
      have : rows[i].run_title = some t := by
        rw [hrt, ht, resolveRunTitle_single]
      simp [this]
    · intro hne j hij
      subst hij
      have hjr : j < rows.length := Nat.lt_of_succ_lt hir
      have hrowj : rows[j]? = some rows[j] := List.getElem?_eq_getElem hjr
      have hosomej : out[j]? =
          some { toFigRow := rows[j], report_type := spec_report_type rows[j] } := by
        rw [hout, List.getElem?_map, hrowj]; rfl
      have : rows[j + 1].run_title = rows[j].run_title := by
        rw [hrt, resolveRunTitle_not_single hne]
        simp [prevTitle, hrowj]
      rw [hosome, hosomej]
      simp [this]

/-- Witness for `run_title_inheritance`: in `docAB` the second figure has
no run title and inherits the first one's. -/
theorem run_title_inheritance_witness :
    (outAB[1]?).map (fun r => r.run_title) =
      (outAB[0]?).map (fun r => r.run_title) :=
  (run_title_inheritance pfe0 docAB outAB (by decide) 1 figB (by decide)).2
    (by decide) 0 rfl

/-- C5 (amended): whenever `parse_report` returns without raising, it
returns exactly one record per figure-marker element, in document order,
each record's `path` being that figure's resolved image source and its
`filename` the path's last component. -/
theorem parser_one_record_per_figure (pfe : String → Ents) (doc : List Figure)
    (out : List TypedRow) (h : parse_report pfe doc = .ok out) :
    out.length = doc.length ∧
    ∀ (i : Nat) (fd : Figure), doc[i]? = some fd →
      ∃ row : TypedRow, out[i]? = some row ∧
        fig_path fd = some row.path ∧
        (pathParts row.path).getLast? = some row.filename := by
  rcases hq : parse_loop pfe doc none with e | rows
  · rw [parse_report_err hq] at h; simp at h
  · have hart : addReportType rows = .ok out := by
      rw [parse_report_eq hq] at h; exact h
    have hout := addReportType_ok hart
    obtain ⟨hlen, hspec⟩ := parse_loop_spec pfe doc none rows hq
    constructor
    · rw [hout, List.length_map, hlen]
    · intro i fd hfd
      have hi : i < doc.length := by
        rcases List.getElem?_eq_some.mp hfd with ⟨hi, _⟩
        exact hi
      have hir : i < rows.length := by rw [hlen]; exact hi
      have hrow : rows[i]? = some rows[i] := List.getElem?_eq_getElem hir
      obtain ⟨⟨hfp, hfn, _⟩, _, _⟩ := hspec i fd rows[i] hfd hrow
      refine ⟨{ toFigRow := rows[i], report_type := spec_report_type rows[i] },
        ?_, hfp, hfn⟩
      rw [hout, List.getElem?_map, hrow]
      rfl

/-- Witness for `parser_one_record_per_figure` on the two-figure document
`docAB`. -/
theorem parser_one_record_per_figure_witness :
    outAB.length = docAB.length :=
  (parser_one_record_per_figure pfe0 docAB outAB (by decide)).1

/-- C5 counterexample: on a document with zero figure-marker elements
`parse_report` raises `AttributeError` (the empty DataFrame has no `desc`
column) instead of returning zero records. -/
theorem parser_empty_doc_raises :
    ([] : List Figure).length = 0 ∧
    parse_report pfe0 ([] : List Figure) = .error .attributeError :=
  ⟨rfl, by decide⟩

/-- C3: the comment above the caption fallback (reports.py lines 48-49)
says the loop scans previous elements until it finds one with an
`elem-caption` class, but the loop's condition compares the bs4 class
*list* against a *string*, which is never true in Python, so on `docSib`
— zero caption paragraphs in the container and an immediately preceding
`p.elem-caption` sibling — the record's `elem_caption` is left unset. -/
theorem caption_sibling_fallback_dead :
    figSib.captions.length = 0 ∧
    figSib.prevSiblings.map Node.getClassDefault =
      [PyVal.pylist ["elem-caption"]] ∧
    (parse_report pfe0 docSib).map
      (fun rows => rows.map (fun r => r.elem_caption)) = .ok [none] := by
  refine ⟨rfl, rfl, ?_⟩
  decide

/-- C9 counterexample: a present-but-empty `src` attribute wins over a
non-empty `data` attribute, so it is presence, not non-emptiness, that
decides. -/
theorem src_presence_beats_data_cex :
    figESrc.src = some "" ∧
    figESrc.data = some "sub-01/figures/d.svg" ∧
    fig_path figESrc = some "" ∧
    fig_path figESrc ≠ some "sub-01/figures/d.svg" := by decide

/-- C9 (amended): the image source is the `src` attribute's value whenever
`src` is present (even empty), otherwise the `data` attribute's value. -/
theorem src_presence_beats_data (fd : Figure) :
    (∀ s, fd.src = some s → fig_path fd = some s) ∧
    (fd.src = none → fig_path fd = fd.data) := by
  constructor
  · intro s hs
    simp [fig_path, hs]
  · intro hs
    simp [fig_path, hs]

/-- Witness for `src_presence_beats_data` on `figA`. -/
theorem src_presence_beats_data_witness :
    fig_path figA = some "sub-01/figures/a.svg" :=
  (src_presence_beats_data figA).1 "sub-01/figures/a.svg" rfl

/-! ### Helper lemmas and claim theorems about pagination -/

lemma assign_getElem (rpp : Option Nat) (g : List TypedRow) (i : Nat) :
    (assign_idx_chunk rpp g)[i]? = (g[i]?).map (fun r =>
      { toTypedRow := r, idx := i,
        chunk :=
          match rpp with
          | none => 0
          | some npp => i / npp }) := by
  unfold assign_idx_chunk
  rw [List.getElem?_map, List.getElem?_enum]
  cases g[i]? <;> rfl

/-- C4: within each `report_type` group every record's `idx` is its
zero-based position in merged order and `chunk = idx / page_size` when a
page size is set, or `0` throughout when it is unset; 120 records at page
size 50 fall into chunks 0, 1, 2 of sizes 50, 50, 20. -/
theorem group_pagination (merged : List TypedRow) (k : String) (p : Nat)
    (i : Nat) (hi : i < (groupOf merged k).length) :
    (((assign_idx_chunk (some p) (groupOf merged k))[i]?).map
        (fun r => (r.idx, r.chunk)) = some (i, i / p)) ∧
    (((assign_idx_chunk none (groupOf merged k))[i]?).map
        (fun r => (r.idx, r.chunk)) = some (i, 0)) ∧
    ((assign_idx_chunk (some 50) (groupOf m120 "T")).filter
        (fun r => r.chunk == 0)).length = 50 ∧
    ((assign_idx_chunk (some 50) (groupOf m120 "T")).filter
        (fun r => r.chunk == 1)).length = 50 ∧
    ((assign_idx_chunk (some 50) (groupOf m120 "T")).filter
        (fun r => r.chunk == 2)).length = 20 ∧
    (assign_idx_chunk (some 50) (groupOf m120 "T")).length = 120 := by
  refine ⟨?_, ?_, by decide, by decide, by decide, by decide⟩
  · rw [assign_getElem, List.getElem?_eq_getElem hi]
    rfl
  · rw [assign_getElem, List.getElem?_eq_getElem hi]
    rfl

/-- Witness for `group_pagination`: record 73 of the 120-row group lands in
chunk 1 with `idx = 73`. -/
theorem group_pagination_witness :
    ((assign_idx_chunk (some 50) (groupOf m120 "T"))[73]?).map
      (fun r => (r.idx, r.chunk)) = some (73, 73 / 50) :=
  (group_pagination m120 "T" 50 73 (by decide)).1

/-! ### Helper lemmas and claim theorem about merging -/

lemma collect_foldl (pfe : String → Ents) :
    ∀ (l : List ReportFile) (ts : List (List TypedRow)),
      (∀ rf ∈ l, (pathParts rf.path).contains "figures" = false →
        (parse_report pfe rf.doc).toOption.isSome = true) →
      l.foldl (collect_step pfe) (.ok ts) =
        .ok (ts ++ (l.filter (fun rf =>
          !((pathParts rf.path).contains "figures"))).map
          (fun rf => ((parse_report pfe rf.doc).toOption).getD [])) := by
  intro l
  induction l with
  | nil =>
    intro ts h
    simp
  | cons rf l' ih =>
    intro ts h
    have hrf := h rf (List.mem_cons_self rf l')
    have htail : ∀ x ∈ l', (pathParts x.path).contains "figures" = false →
        (parse_report pfe x.doc).toOption.isSome = true :=
      fun x hx hfx => h x (List.mem_cons_of_mem rf hx) hfx
    cases hfig : (pathParts rf.path).contains "figures" with
    | true =>
      have hfig' : "figures" ∈ pathParts rf.path := by simpa using hfig
      rw [List.foldl_cons]
      have hstep : collect_step pfe (.ok ts) rf = .ok ts := by
        simp [collect_step, hfig']
      rw [hstep, ih ts htail]
      simp [List.filter_cons, hfig']
    | false =>
      have hfig' : "figures" ∉ pathParts rf.path := by simpa using hfig
      have hsome := hrf hfig
      rcases hp : parse_report pfe rf.doc with e | t
      · rw [hp] at hsome
        simp [Except.toOption] at hsome
      · rw [List.foldl_cons]
        have hstep : collect_step pfe (.ok ts) rf = .ok (ts ++ [t]) := by
          simp [collect_step, hfig', hp]
        rw [hstep, ih (ts ++ [t]) htail]
        simp [List.filter_cons, hfig', hp, Except.toOption,
          List.append_assoc]

/-- C6: the merged table is the concatenation of the per-subject tables in
sorted report-path order (a sorted permutation of the discovered files),
with reports living under a `figures` directory excluded. -/
theorem merged_table_order (pfe : String → Ents) (files : List ReportFile)
    (hok : ∀ rf ∈ files, (pathParts rf.path).contains "figures" = false →
      (parse_report pfe rf.doc).toOption.isSome = true)
    (hne : ∃ rf ∈ files, (pathParts rf.path).contains "figures" = false) :
    merge_reports pfe files =
      .ok ((((report_paths_sorted files).filter (fun rf =>
          !((pathParts rf.path).contains "figures"))).map
          (fun rf => ((parse_report pfe rf.doc).toOption).getD [])).flatten) ∧
    (report_paths_sorted files).Sorted pathLe ∧
    (report_paths_sorted files).Perm files := by
  have hperm : (report_paths_sorted files).Perm files :=
    List.perm_insertionSort pathLe files
  have hsorted : (report_paths_sorted files).Sorted pathLe :=
    List.sorted_insertionSort pathLe files
  refine ⟨?_, hsorted, hperm⟩
  have hok' : ∀ rf ∈ report_paths_sorted files,
      (pathParts rf.path).contains "figures" = false →
      (parse_report pfe rf.doc).toOption.isSome = true :=
    fun rf hrf => hok rf (hperm.mem_iff.mp hrf)
  obtain ⟨rf0, hrf0, hf0⟩ := hne
  set X := ((report_paths_sorted files).filter (fun rf =>
      !((pathParts rf.path).contains "figures"))).map
      (fun rf => ((parse_report pfe rf.doc).toOption).getD []) with hX
  have hmem : rf0 ∈ (report_paths_sorted files).filter (fun rf =>
      !((pathParts rf.path).contains "figures")) :=
    List.mem_filter.mpr ⟨hperm.mem_iff.mpr hrf0, by simpa using hf0⟩
  have hnempty : X ≠ [] := by
    intro hcontra
    rw [hX] at hcontra
    rw [List.map_eq_nil_iff.mp hcontra] at hmem
    exact absurd hmem (List.not_mem_nil rf0)
  have hfalse : X.isEmpty = false := by
    rcases hml : X with _ | ⟨a, as⟩
    · exact absurd hml hnempty
    · rfl
  have hcol : collect_reports pfe (report_paths_sorted files) = .ok X := by
    unfold collect_reports
    rw [hX]
    simpa using collect_foldl pfe (report_paths_sorted files) [] hok'
  unfold merge_reports
  rw [hcol]
  show (if X.isEmpty = true then Except.error Err.valueError
    else Except.ok X.flatten) = Except.ok X.flatten
  rw [hfalse]
  simp

/-- Witness for `merged_table_order` on three discovered files, one of
which sits inside a `figures` directory. -/
theorem merged_table_order_witness :
    merge_reports pfe0 filesABF =
      .ok ((((report_paths_sorted filesABF).filter (fun rf =>
          !((pathParts rf.path).contains "figures"))).map
          (fun rf => ((parse_report pfe0 rf.doc).toOption).getD [])).flatten) :=
  (merged_table_order pfe0 filesABF (by decide) (by decide)).1

/-! ### Helper lemmas and claim theorems about the snippet renderer -/

lemma dictSet_absent {d : List (String × Val)} {k : String} {v : Val}
    (h : d.any (fun kv => kv.1 == k) = false) :
    dictSet d k v = d ++ [(k, v)] := by
  simp [dictSet, h]

/-- C7 counterexample: for `rowSnip` the embedded JSON record keeps `desc`
and `idx` (the claim says the larger exclusion set drops them there) while
the visible header drops `desc` (the claim says only the smaller set is
excluded from the header). -/
theorem snippet_field_views_cex :
    ((id_ents rowSnip).any (fun kv => kv.1 == "desc") = true) ∧
    ((id_ents rowSnip).any (fun kv => kv.1 == "idx") = true) ∧
    ((header_vals rowSnip).any (fun kv => kv.1 == "desc") = false) := by
  decide

/-- C7 (amended): the embedded JSON record excludes exactly the smaller
set (`path`, `run_title`, `elem_caption`, `extension`, `filename`) and
additionally carries `been_on_screen = False`, while the visible header
keeps the non-null fields outside the larger set (the smaller set plus
`desc`, `report_type`, `idx`, `chunk`). -/
theorem snippet_field_views (row : List (String × Val))
    (hb : row.all (fun kv => kv.1 != "been_on_screen") = true)
    (k : String) (v : Val) :
    ((k, v) ∈ id_ents row ↔
      ((k, v) ∈ row ∧ id_blacklist.contains k = false) ∨
      (k = "been_on_screen" ∧ v = Val.vbool false)) ∧
    ((k, v) ∈ header_vals row ↔
      (k, v) ∈ row ∧ header_blacklist.contains k = false ∧
        v.notnull = true) := by
  have hany : (row.filter (fun kv => !(id_blacklist.contains kv.1))).any
      (fun kv => kv.1 == "been_on_screen") = false := by
    rw [List.any_eq_false]
    intro x hx
    have hxrow := (List.mem_filter.mp hx).1
    have := List.all_eq_true.mp hb x hxrow
    simpa using this
  constructor
  · rw [id_ents, dictSet_absent hany]
    simp [List.mem_filter, Prod.ext_iff]
  · rw [header_vals, header_ents]
    constructor
    · intro hmem
      obtain ⟨hmf, hnn⟩ := List.mem_filter.mp hmem
      obtain ⟨hmr, hbl⟩ := List.mem_filter.mp hmf
      refine ⟨hmr, ?_, hnn⟩
      simpa using hbl
    · rintro ⟨hmr, hbl, hnn⟩
      exact List.mem_filter.mpr
        ⟨List.mem_filter.mpr ⟨hmr, by simpa using hbl⟩, hnn⟩

/-- Witness for `snippet_field_views` at the entity field `subject`. -/
theorem snippet_field_views_witness :
    (("subject", Val.vstr "01") ∈ id_ents rowSnip ↔
      (("subject", Val.vstr "01") ∈ rowSnip ∧
        id_blacklist.contains "subject" = false) ∨
      ("subject" = "been_on_screen" ∧ Val.vstr "01" = Val.vbool false)) ∧
    (("subject", Val.vstr "01") ∈ header_vals rowSnip ↔
      ("subject", Val.vstr "01") ∈ rowSnip ∧
        header_blacklist.contains "subject" = false ∧
        (Val.vstr "01").notnull = true) :=
  snippet_field_views rowSnip (by decide) "subject" (Val.vstr "01")

/-! ### Claim theorem about the subject symlink step -/

/-- C8: rerunning the per-subject symlink step on a filesystem where the
subject's group directory and `figures` symlink already exist does not
raise and leaves the filesystem (hence the symlink's target) unchanged,
whatever target the second run would have used. -/
theorem figures_symlink_idempotent (fs : FS) (d l t : String)
    (hd : fs.lookup d = some FSEntry.dir)
    (hl : is_symlink fs l = true) :
    ensure_subject_link fs d l t = .ok fs ∧
    ∃ tgt, fs.lookup l = some (FSEntry.symlink tgt) := by
  have htgt : ∃ tgt, fs.lookup l = some (FSEntry.symlink tgt) := by
    unfold is_symlink at hl
    rcases hll : fs.lookup l with _ | entry
    · rw [hll] at hl
      simp at hl
    · cases entry with
      | dir => rw [hll] at hl; simp at hl
      | file => rw [hll] at hl; simp at hl
      | symlink tgt => exact ⟨tgt, rfl⟩
  refine ⟨?_, htgt⟩
  simp [ensure_subject_link, mkdir_exist_ok, hd, hl]

/-- Witness for `figures_symlink_idempotent` on a filesystem left by a
first run, retried with a different target. -/
theorem figures_symlink_idempotent_witness :
    ensure_subject_link fsOnce "group/sub-01" "group/sub-01/figures"
      "elsewhere/figures" = .ok fsOnce :=
  (figures_symlink_idempotent fsOnce "group/sub-01" "group/sub-01/figures"
    "elsewhere/figures" (by decide) (by decide)).1

end Fgr
